import Mathlib

/-!
Verification development for the NSW feasibility API (`app.py`).

The service is a single-endpoint backend: it validates the presence of
required project-attribute fields, builds a prompt from the request body,
issues one chat-completion call to an external provider, parses the
provider text as JSON (falling back to an error payload on parse failure),
and returns an envelope echoing the input alongside the parse result.

Modelling conventions:
* JSON documents are the inductive type `Json`.  Numbers are modelled as
  rationals (`Rat`); the int/float distinction of the Python runtime and
  IEEE-754 rounding are idealised away (no claim depends on numeric
  representation).  The non-standard `NaN`/`Infinity` literals that
  Python's `json.loads` accepts by default are likewise outside the model,
  as they denote floats.
* A parsed JSON object / Python dict is an association list
  `List (String × Json)` with unique keys in insertion order; object
  parsing reproduces Python's duplicate-key handling (first position,
  last value) via `dictInsert`.
* The external completion provider is an oracle `ChatRequest → String`;
  each outbound call is recorded in a trace so that "no provider call is
  made" is expressible.
* HTTP responses are pairs `(status, body)` with `status : Nat` and
  `body : Json` (the argument that the code passes to `jsonify`).
-/

/-- A JSON document, as produced by Python's `json.loads`. -/
inductive Json where
  | null : Json
  | bool : Bool → Json
  | num : Rat → Json
  | str : String → Json
  | arr : List Json → Json
  | obj : List (String × Json) → Json
deriving Repr

/-- Python truthiness (`bool(x)`) of a JSON-decoded value: `None`, `False`,
`0`, `""`, `[]` and an empty dict are falsy, everything else is truthy. -/
def truthy : Json → Bool
  | Json.null => false
  | Json.bool b => b
  | Json.num q => ! decide (q = 0)
  | Json.str s => ! decide (s = "")
  | Json.arr xs => ! xs.isEmpty
  | Json.obj kvs => ! kvs.isEmpty

/-- Python `dict.get(k)`: `some v` when the key is present, `none` otherwise.
Keys of a dict are unique, so first-match lookup is the dict lookup. -/
def dictGet (d : List (String × Json)) (k : String) : Option Json :=
  match d with
  | [] => none
  | (k1, v) :: rest => if k1 = k then some v else dictGet rest k

/-- Truthiness of `d.get(k)`: a missing key yields `None`, which is falsy. -/
def truthyOpt : Option Json → Bool
  | none => false
  | some v => truthy v

/-- Python `d[k] = v` on a dict represented as an association list: an
existing key keeps its position and receives the new value, a new key is
appended.  This reproduces duplicate-key handling in `json.loads`. -/
def dictInsert : List (String × Json) → String → Json → List (String × Json)
  | [], k, v => [(k, v)]
  | (k1, v1) :: rest, k, v =>
      if k1 = k then (k1, v) :: rest else (k1, v1) :: dictInsert rest k v

/-- The opening brace character. -/
def lbrace : Char := Char.ofNat 123

/-- The closing brace character. -/
def rbrace : Char := Char.ofNat 125

/-- JSON insignificant whitespace: space, tab, line feed, carriage return. -/
def isJsonWs (c : Char) : Bool :=
  c = ' ' || c = '\t' || c = '\n' || c = '\r'

/-- Drop leading JSON whitespace. -/
def skipWs : List Char → List Char
  | [] => []
  | c :: cs => if isJsonWs c then skipWs cs else c :: cs

/-- Numeric value of a hexadecimal digit. -/
def hexVal (c : Char) : Option Nat :=
  if '0' ≤ c ∧ c ≤ '9' then some (c.toNat - 48)
  else if 'a' ≤ c ∧ c ≤ 'f' then some (c.toNat - 87)
  else if 'A' ≤ c ∧ c ≤ 'F' then some (c.toNat - 55)
  else none

/-- Value of a (non-empty) run of decimal digits. -/
def digitsToNat (ds : List Char) : Nat :=
  ds.foldl (fun n c => 10 * n + (c.toNat - 48)) 0

/-- `10 ^ e` as a rational, for an integer exponent. -/
def pow10 (e : Int) : Rat :=
  if 0 ≤ e then ((10 : Rat) ^ e.toNat) else 1 / ((10 : Rat) ^ (-e).toNat)

/-- Parse a JSON number (RFC 8259 grammar: optional minus, integer part
without leading zeros, optional fraction, optional exponent), returning its
rational value and the remaining input. -/
def pNumber (cs : List Char) : Option (Rat × List Char) :=
  let signed := match cs with
    | '-' :: r => (true, r)
    | _ => (false, cs)
  let neg := signed.1
  match (signed.2).span Char.isDigit with
  | ([], _) => none
  | (ds, cs2) =>
    if 1 < ds.length ∧ ds.headD ' ' = '0' then none
    else
      let ipart : Int := Int.ofNat (digitsToNat ds)
      let frac : Option (Nat × Nat × List Char) :=
        match cs2 with
        | '.' :: r =>
          match r.span Char.isDigit with
          | ([], _) => none
          | (fs, r2) => some (digitsToNat fs, fs.length, r2)
        | _ => some (0, 0, cs2)
      match frac with
      | none => none
      | some (fval, flen, cs3) =>
        let expo : Option (Int × List Char) :=
          match cs3 with
          | c :: r =>
            if c = 'e' ∨ c = 'E' then
              let esigned : Int × List Char := match r with
                | '+' :: r2 => (1, r2)
                | '-' :: r2 => (-1, r2)
                | _ => (1, r)
              match (esigned.2).span Char.isDigit with
              | ([], _) => none
              | (es, r2) => some (esigned.1 * Int.ofNat (digitsToNat es), r2)
            else some (0, cs3)
          | [] => some (0, [])
        match expo with
        | none => none
        | some (ex, cs4) =>
          let mant : Int :=
            (if neg then -1 else 1) * (ipart * (10 : Int) ^ flen + Int.ofNat fval)
          some ((mant : Rat) * pow10 (ex - Int.ofNat flen), cs4)

/-- Parse the body of a JSON string (the input starts just after the opening
quote), returning the decoded characters and the remaining input.  Strict
mode: unescaped control characters are rejected.  Surrogate pairs in `\u`
escapes are combined; a lone surrogate (which Python would keep) is outside
`Char` and idealised to `Char.ofNat`'s default.  The fuel only bounds the
recursion; each step consumes at least one character, so the
`length + 1` supplied by the callers is always sufficient. -/
def pStringChars : Nat → List Char → Option (List Char × List Char)
  | 0, _ => none
  | _, [] => none
  | fuel + 1, c :: rest =>
    if c = '"' then some ([], rest)
    else if c = '\\' then
      match rest with
      | [] => none
      | e :: rest1 =>
        if e = 'u' then
          match rest1 with
          | h1 :: h2 :: h3 :: h4 :: rest2 =>
            match hexVal h1, hexVal h2, hexVal h3, hexVal h4 with
            | some a, some b, some c1, some d =>
              let n := ((a * 16 + b) * 16 + c1) * 16 + d
              if 0xD800 ≤ n ∧ n ≤ 0xDBFF then
                match rest2 with
                | '\\' :: 'u' :: g1 :: g2 :: g3 :: g4 :: rest3 =>
                  match hexVal g1, hexVal g2, hexVal g3, hexVal g4 with
                  | some a2, some b2, some c2, some d2 =>
                    let m := ((a2 * 16 + b2) * 16 + c2) * 16 + d2
                    if 0xDC00 ≤ m ∧ m ≤ 0xDFFF then
                      match pStringChars fuel rest3 with
                      | some (s, r) =>
                        some (Char.ofNat (0x10000 + (n - 0xD800) * 0x400 + (m - 0xDC00)) :: s, r)
                      | none => none
                    else
                      match pStringChars fuel (('\\' : Char) :: 'u' :: g1 :: g2 :: g3 :: g4 :: rest3) with
                      | some (s, r) => some (Char.ofNat n :: s, r)
                      | none => none
                  | _, _, _, _ => none
                | _ =>
                  match pStringChars fuel rest2 with
                  | some (s, r) => some (Char.ofNat n :: s, r)
                  | none => none
              else
                match pStringChars fuel rest2 with
                | some (s, r) => some (Char.ofNat n :: s, r)
                | none => none
            | _, _, _, _ => none
          | _ => none
        else
          let esc : Option Char :=
            if e = '"' then some '"'
            else if e = '\\' then some '\\'
            else if e = '/' then some '/'
            else if e = 'b' then some (Char.ofNat 8)
            else if e = 'f' then some (Char.ofNat 12)
            else if e = 'n' then some '\n'
            else if e = 'r' then some '\r'
            else if e = 't' then some '\t'
            else none
          match esc with
          | none => none
          | some ch =>
            match pStringChars fuel rest1 with
            | some (s, r) => some (ch :: s, r)
            | none => none
    else if c.toNat < 32 then none
    else
      match pStringChars fuel rest with
      | some (s, r) => some (c :: s, r)
      | none => none
termination_by structural fuel _ => fuel

mutual

/-- Parse one JSON value after skipping leading whitespace.  The fuel bounds
nesting depth and element count; `jsonLoads` supplies enough for any input. -/
def pValue : Nat → List Char → Option (Json × List Char)
  | 0, _ => none
  | fuel + 1, cs =>
    match skipWs cs with
    | [] => none
    | c :: rest =>
      if c = 'n' then
        match rest with
        | 'u' :: 'l' :: 'l' :: rest2 => some (Json.null, rest2)
        | _ => none
      else if c = 't' then
        match rest with
        | 'r' :: 'u' :: 'e' :: rest2 => some (Json.bool true, rest2)
        | _ => none
      else if c = 'f' then
        match rest with
        | 'a' :: 'l' :: 's' :: 'e' :: rest2 => some (Json.bool false, rest2)
        | _ => none
      else if c = '"' then
        match pStringChars (rest.length + 1) rest with
        | some (s, rest2) => some (Json.str (String.mk s), rest2)
        | none => none
      else if c = '[' then
        match skipWs rest with
        | ']' :: rest2 => some (Json.arr [], rest2)
        | rest1 =>
          match pElems fuel rest1 with
          | some (xs, rest2) => some (Json.arr xs, rest2)
          | none => none
      else if c = lbrace then
        let rest1 := skipWs rest
        if rest1.headD ' ' = rbrace then some (Json.obj [], rest1.tail)
        else
          match pMembers fuel [] rest1 with
          | some (kvs, rest2) => some (Json.obj kvs, rest2)
          | none => none
      else
        match pNumber (c :: rest) with
        | some (q, rest2) => some (Json.num q, rest2)
        | none => none
termination_by structural fuel _ => fuel

/-- Parse the comma-separated elements of a non-empty JSON array (input
positioned at the first element), consuming the closing bracket. -/
def pElems : Nat → List Char → Option (List Json × List Char)
  | 0, _ => none
  | fuel + 1, cs =>
    match pValue fuel cs with
    | none => none
    | some (j, rest) =>
      match skipWs rest with
      | ',' :: rest2 =>
        match pElems fuel rest2 with
        | some (xs, rest3) => some (j :: xs, rest3)
        | none => none
      | ']' :: rest2 => some ([j], rest2)
      | _ => none
termination_by structural fuel _ => fuel

/-- Parse the members of a non-empty JSON object (input positioned at the
first key), building the dict sequentially as Python does, and consuming
the closing brace. -/
def pMembers : Nat → List (String × Json) → List Char → Option (List (String × Json) × List Char)
  | 0, _, _ => none
  | fuel + 1, acc, cs =>
    match skipWs cs with
    | '"' :: rest =>
      match pStringChars (rest.length + 1) rest with
      | none => none
      | some (k, rest1) =>
        match skipWs rest1 with
        | ':' :: rest2 =>
          match pValue fuel rest2 with
          | none => none
          | some (v, rest3) =>
            let acc1 := dictInsert acc (String.mk k) v
            match skipWs rest3 with
            | ',' :: rest4 => pMembers fuel acc1 rest4
            | rest4 =>
              if rest4.headD ' ' = rbrace then some (acc1, rest4.tail)
              else none
        | _ => none
    | _ => none
termination_by structural fuel _ _ => fuel

end

/-- Python `json.loads`: parse one JSON document, allowing surrounding
whitespace, and fail (`none`, the `JSONDecodeError` case) on anything else.
The fuel `2 * length + 2` exceeds what any input can consume, since every
parser step advances past at least one character per two units of fuel. -/
def jsonLoads (s : String) : Option Json :=
  match pValue (2 * s.length + 2) s.data with
  | some (j, rest) => if (skipWs rest).isEmpty then some j else none
  | none => none

/-- The fixed system instruction sent verbatim on every provider call
(`SYSTEM_PROMPT` in `app.py`). -/
def SYSTEM_PROMPT : String := "
You are a property development feasibility assistant for NSW, Australia.
You help pre-fill assumptions for a feasibility model.

Constraints:
- You CANNOT live-browse the web. Use only your training and general knowledge.
- You may suggest likely official sources/URLs (e.g. NSW Planning Portal, council websites),
  but you must clearly state that the user must verify them.

Focus areas:
- Section 7.11 and 7.12 development contributions (explain which is likely to apply).
- Housing and Productivity Contribution (HPC) where relevant.
- Long Service Levy.
- BASIX fees (rough magnitude and where to check).
- Typical construction cost per m² for this type of product.
- Typical marketing % of gross realisation.
- Other common state/local contributions (SIC, state infrastructure charges, bonds, etc.)

Output:
Return ONLY valid JSON in this structure:

\x7b
  \"assumptions\": \x7b
    \"section_711_per_dwelling\": \x7b
      \"value\": <number or null>,
      \"unit\": \"AUD per dwelling\",
      \"notes\": \"string\",
      \"source_links\": [\"https://...\", \"...\"]
    \x7d,
    \"section_712_percent\": \x7b
      \"value\": <number or null>,
      \"unit\": \"% of estimated development cost\",
      \"notes\": \"string\",
      \"source_links\": [\"https://...\"]
    \x7d,
    \"hpc_per_dwelling\": \x7b
      \"value\": <number or null>,
      \"unit\": \"AUD per dwelling\",
      \"notes\": \"string\",
      \"source_links\": [\"https://...\"]
    \x7d,
    \"construction_cost_per_m2\": \x7b
      \"value\": <number or null>,
      \"unit\": \"AUD per m2\",
      \"notes\": \"string\",
      \"source_links\": [\"https://...\"]
    \x7d,
    \"marketing_percent_of_gross\": \x7b
      \"value\": <number or null>,
      \"unit\": \"% of gross realisation\",
      \"notes\": \"string\",
      \"source_links\": [\"https://...\"]
    \x7d,
    \"long_service_levy_percent\": \x7b
      \"value\": <number or null>,
      \"unit\": \"% of construction cost\",
      \"notes\": \"string\",
      \"source_links\": [\"https://...\"]
    \x7d,
    \"basix_fee_estimate\": \x7b
      \"value\": <number or null>,
      \"unit\": \"AUD per project or dwelling\",
      \"notes\": \"string\",
      \"source_links\": [\"https://...\"]
    \x7d,
    \"other_state_charges_estimate\": \x7b
      \"value\": <number or null>,
      \"unit\": \"AUD total\",
      \"notes\": \"string\",
      \"source_links\": [\"https://...\"]
    \x7d
  \x7d,
  \"computed\": \x7b
    \"estimated_total_construction_cost\": <number or null>,
    \"estimated_total_contributions\": <number or null>,
    \"notes\": \"string\"
  \x7d
\x7d
"

/-- A single quote character, used by Python `repr`. -/
def squoteStr : String := String.singleton (Char.ofNat 39)

/-- Opening brace as a string. -/
def lbraceStr : String := String.singleton lbrace

/-- Closing brace as a string. -/
def rbraceStr : String := String.singleton rbrace

mutual

/-- Python `repr` of a JSON-decoded value, as used by `str()` on containers.
Idealisation: string `repr` always uses single quotes and does not escape
special characters (Python escapes and chooses quotes adaptively); numbers
follow `pyNumStr`.  No claim depends on this rendering. -/
def pyRepr : Json → String
  | Json.null => "None"
  | Json.bool true => "True"
  | Json.bool false => "False"
  | Json.num q => if q.den = 1 then toString q.num else toString q.num ++ "/" ++ toString q.den
  | Json.str s => squoteStr ++ s ++ squoteStr
  | Json.arr xs => "[" ++ pyReprElems xs ++ "]"
  | Json.obj kvs => lbraceStr ++ pyReprMembers kvs ++ rbraceStr

/-- Comma-joined `repr` of list elements. -/
def pyReprElems : List Json → String
  | [] => ""
  | [x] => pyRepr x
  | x :: y :: rest => pyRepr x ++ ", " ++ pyReprElems (y :: rest)

/-- Comma-joined `repr` of dict members. -/
def pyReprMembers : List (String × Json) → String
  | [] => ""
  | [(k, v)] => squoteStr ++ k ++ squoteStr ++ ": " ++ pyRepr v
  | (k, v) :: m :: rest =>
      squoteStr ++ k ++ squoteStr ++ ": " ++ pyRepr v ++ ", " ++ pyReprMembers (m :: rest)

end

/-- Python `str()` of a JSON-decoded value (the f-string conversion):
strings render as themselves, everything else as its `repr`. -/
def pyStr : Json → String
  | Json.str s => s
  | j => pyRepr j

/-- The text interpolated for `project_data.get(k)` in the user prompt
f-string: a missing key yields `None`, rendered `"None"`. -/
def pyGet (d : List (String × Json)) (k : String) : String :=
  match dictGet d k with
  | none => "None"
  | some v => pyStr v

/-- The first three lines of the user prompt (`app.py` lines 107-110),
through the end of the project-type line. -/
def prompt_head (pd : List (String × Json)) : String :=
  "\nProject details:\n- Address: " ++ pyGet pd "address"
    ++ "\n- LGA: " ++ pyGet pd "lga"
    ++ "\n- Project type: " ++ pyGet pd "project_type"

/-- The constant tail of the user prompt after the interpolated fields
(`app.py` lines 114-131). -/
def prompt_tail : String :=
  "\n\nTask:\nBased on NSW practice, estimate:\n- Section 7.11 OR 7.12 contributions relevant to this project (and explain which is more likely).\n- HPC per dwelling if applicable, or note if unlikely.\n- Long Service Levy %.\n- Typical construction cost per m² for this product type in NSW.\n- Typical marketing % of gross realisation.\n- Rough BASIX fee magnitude.\n- Any other common state or local charges.\n\nThen compute:\n- estimated_total_construction_cost = construction_cost_per_m2 * gfa_m2 (if both known)\n- estimated_total_contributions = contributions + HPC + other charges (approx).\n\nReturn data in the exact JSON format described in the system prompt.\nIf you are unsure, set value to null and explain in notes.\n"

/-- The per-request user instruction (`user_prompt` in
`call_chatgpt_prefill`, `app.py` lines 106-131): the f-string interpolating
the six project fields. -/
def user_prompt (pd : List (String × Json)) : String :=
  prompt_head pd
    ++ "\n- Number of dwellings: " ++ pyGet pd "dwellings"
    ++ "\n- Gross floor area (m2): " ++ pyGet pd "gfa_m2"
    ++ "\n- Brief description: " ++ pyGet pd "description"
    ++ prompt_tail

/-- One message of a chat-completion request. -/
structure ChatMessage where
  role : String
  content : String
deriving Repr, DecidableEq

/-- The outbound provider request issued by
`client.chat.completions.create` (`app.py` lines 133-140).  The sampling
temperature `0.1` is modelled as the rational `1 / 10`. -/
structure ChatRequest where
  model : String
  messages : List ChatMessage
  temperature : Rat
deriving Repr, DecidableEq

/-- The exact request built for a given project-attributes mapping. -/
def prefill_request (pd : List (String × Json)) : ChatRequest :=
  ⟨"gpt-4o-mini", [⟨"system", SYSTEM_PROMPT⟩, ⟨"user", user_prompt pd⟩], 1 / 10⟩

/-- The try/except around `json.loads` (`app.py` lines 144-147): parse the
provider text, and on `JSONDecodeError` fall back to the error payload
embedding the raw text. -/
def parse_or_error (content : String) : Json :=
  match jsonLoads content with
  | some data => data
  | none =>
      Json.obj [("error", Json.str "Model did not return valid JSON"),
                ("raw", Json.str content)]

/-- `call_chatgpt_prefill` (`app.py` lines 101-149): build the user prompt,
issue one provider call, parse with fallback.  The provider is an oracle
from requests to raw completion text; the list of issued requests is
returned alongside the result so the absence of calls is observable. -/
def call_chatgpt_prefill (provider : ChatRequest → String)
    (project_data : List (String × Json)) : Json × List ChatRequest :=
  let req := prefill_request project_data
  let content := provider req
  (parse_or_error content, [req])

/-- The required request fields (`app.py` line 161). -/
def requiredFields : List String := ["address", "lga", "project_type"]

/-- `[k for k in required if not project_data.get(k)]` (`app.py` line 162):
the required keys whose value is absent or falsy, in the order of the
`required` list. -/
def missingFields (project_data : List (String × Json)) : List String :=
  requiredFields.filter (fun k => ! truthyOpt (dictGet project_data k))

/-- The request handler `feasibility_prefill` (`app.py` lines 152-171).
The inbound body is the decoded JSON object (`request.json or {}`); the
result is the HTTP response `(status, body)` paired with the trace of
outbound provider calls. -/
def feasibility_prefill (provider : ChatRequest → String)
    (project_data : List (String × Json)) : (Nat × Json) × List ChatRequest :=
  let missing := missingFields project_data
  if ! missing.isEmpty then
    ((400, Json.obj [("error",
        Json.str ("Missing fields: " ++ String.intercalate ", " missing))]), [])
  else
    let r := call_chatgpt_prefill provider project_data
    ((200, Json.obj [("project", Json.obj project_data),
                     ("ai_result", r.1)]), r.2)

/-- The health endpoint `root` (`app.py` lines 174-179): a constant
response. -/
def rootEndpoint : Nat × Json :=
  (200, Json.obj [("status", Json.str "ok"),
                  ("message", Json.str "NSW feasibility API is running")])

/-- Python truthiness of `os.getenv`: `None` (unset) and the empty string
are falsy. -/
def strTruthy : Option String → Bool
  | none => false
  | some s => ! decide (s = "")

/-- Module initialisation (`app.py` lines 8-11): read `OPENAI_API_KEY` from
the environment and raise `RuntimeError` when it is absent or empty,
before any route can be served. -/
def startup_check (env : Option String) : Except String String :=
  if strTruthy env then Except.ok (env.getD "")
  else Except.error "OPENAI_API_KEY environment variable is not set"

/-- Field lookup on a JSON object value (`none` on non-objects). -/
def objGet : Json → String → Option Json
  | Json.obj kvs, k => dictGet kvs k
  | _, _ => none

/-- A provider oracle that returns the same text on every request. -/
def constProvider (s : String) : ChatRequest → String := fun _ => s

/-- A minimal valid request body: the three required fields only. -/
def exampleBody : List (String × Json) :=
  [("address", Json.str "1 Main St"), ("lga", Json.str "Sydney"),
   ("project_type", Json.str "residential")]

/-- A nonempty list is not `isEmpty`. -/
theorem isEmpty_false_of_mem {α : Type} {a : α} {l : List α} (h : a ∈ l) :
    l.isEmpty = false := by
  cases l with
  | nil => cases h
  | cons x xs => rfl

/-- Membership in `missingFields` from a falsy required field. -/
theorem mem_missingFields {body : List (String × Json)} {k : String}
    (hk : k ∈ requiredFields) (hfalsy : truthyOpt (dictGet body k) = false) :
    k ∈ missingFields body := by
  unfold missingFields
  exact List.mem_filter.mpr ⟨hk, by rw [hfalsy]; rfl⟩

/-- C1: a request body with a falsy (absent, null, or empty) required field
is answered with status 400 and the body
`{"error": "Missing fields: <comma-joined list>"}`, the list contains every
falsy required field, and no outbound provider call is made. -/
theorem missing_required_fields_give_400_and_no_call
    (provider : ChatRequest → String) (body : List (String × Json)) (k : String)
    (hk : k ∈ requiredFields) (hfalsy : truthyOpt (dictGet body k) = false) :
    (feasibility_prefill provider body).1.1 = 400 ∧
    (feasibility_prefill provider body).1.2 =
      Json.obj [("error", Json.str
        ("Missing fields: " ++ String.intercalate ", " (missingFields body)))] ∧
    (∀ f ∈ requiredFields, truthyOpt (dictGet body f) = false →
        f ∈ missingFields body) ∧
    (feasibility_prefill provider body).2 = [] := by
  have hE : (missingFields body).isEmpty = false :=
    isEmpty_false_of_mem (mem_missingFields hk hfalsy)
  refine ⟨?_, ?_, ?_, ?_⟩
  · simp [feasibility_prefill, hE]
  · simp [feasibility_prefill, hE]
  · intro f hf hff
    exact mem_missingFields hf hff
  · simp [feasibility_prefill, hE]

/-- C1 witness: the empty body has a falsy `address` field, is answered
with status 400, and triggers no provider call. -/
theorem missing_required_fields_give_400_and_no_call_witness :
    ("address" ∈ requiredFields ∧
      truthyOpt (dictGet ([] : List (String × Json)) "address") = false) ∧
    (feasibility_prefill (constProvider "ignored") []).1.1 = 400 ∧
    (feasibility_prefill (constProvider "ignored") []).2 = [] :=
  ⟨⟨by decide, rfl⟩,
   (missing_required_fields_give_400_and_no_call (constProvider "ignored") []
      "address" (by decide) rfl).1,
   (missing_required_fields_give_400_and_no_call (constProvider "ignored") []
      "address" (by decide) rfl).2.2.2⟩

/-- C2: for every body that passes required-field validation, the response
has status 200 and its `project` field is exactly the input body, whatever
the provider returns. -/
theorem valid_body_project_echo
    (provider : ChatRequest → String) (body : List (String × Json))
    (hvalid : missingFields body = []) :
    (feasibility_prefill provider body).1.1 = 200 ∧
    objGet (feasibility_prefill provider body).1.2 "project" =
      some (Json.obj body) := by
  have hE : (missingFields body).isEmpty = true := by rw [hvalid]; rfl
  have hbody : (feasibility_prefill provider body).1.2 =
      Json.obj [("project", Json.obj body),
                ("ai_result", parse_or_error (provider (prefill_request body)))] := by
    simp [feasibility_prefill, hE, call_chatgpt_prefill]
  refine ⟨?_, ?_⟩
  · simp [feasibility_prefill, hE]
  · rw [hbody]; rfl

/-- C2 witness: the echo holds on a concrete valid body with a provider
returning non-JSON text. -/
theorem valid_body_project_echo_witness :
    missingFields exampleBody = [] ∧
    (feasibility_prefill (constProvider "not json") exampleBody).1.1 = 200 ∧
    objGet (feasibility_prefill (constProvider "not json") exampleBody).1.2
        "project" = some (Json.obj exampleBody) :=
  ⟨rfl,
   (valid_body_project_echo (constProvider "not json") exampleBody rfl).1,
   (valid_body_project_echo (constProvider "not json") exampleBody rfl).2⟩

/-- C3: when the provider text is not valid JSON, the request still
succeeds with status 200 and `ai_result` is exactly the error payload
embedding the raw provider text. -/
theorem nonjson_provider_text_yields_error_result
    (provider : ChatRequest → String) (body : List (String × Json))
    (hvalid : missingFields body = [])
    (hparse : jsonLoads (provider (prefill_request body)) = none) :
    (feasibility_prefill provider body).1.1 = 200 ∧
    objGet (feasibility_prefill provider body).1.2 "ai_result" =
      some (Json.obj [("error", Json.str "Model did not return valid JSON"),
                      ("raw", Json.str (provider (prefill_request body)))]) := by
  have hE : (missingFields body).isEmpty = true := by rw [hvalid]; rfl
  have hbody : (feasibility_prefill provider body).1.2 =
      Json.obj [("project", Json.obj body),
                ("ai_result", parse_or_error (provider (prefill_request body)))] := by
    simp [feasibility_prefill, hE, call_chatgpt_prefill]
  refine ⟨?_, ?_⟩
  · simp [feasibility_prefill, hE]
  · rw [hbody]
    show dictGet _ _ = _
    rw [show parse_or_error (provider (prefill_request body)) =
          Json.obj [("error", Json.str "Model did not return valid JSON"),
                    ("raw", Json.str (provider (prefill_request body)))] from by
        unfold parse_or_error; rw [hparse]]
    rfl

/-- C3 witness: a provider answering `"not json"` on a concrete valid body
produces the error payload with the raw text preserved. -/
theorem nonjson_provider_text_yields_error_result_witness :
    (missingFields exampleBody = [] ∧
      jsonLoads (constProvider "not json" (prefill_request exampleBody)) = none) ∧
    objGet (feasibility_prefill (constProvider "not json") exampleBody).1.2
        "ai_result" =
      some (Json.obj [("error", Json.str "Model did not return valid JSON"),
                      ("raw", Json.str "not json")]) :=
  ⟨⟨rfl, rfl⟩,
   (nonjson_provider_text_yields_error_result (constProvider "not json")
      exampleBody rfl rfl).2⟩

/-- C4: when the provider text parses as JSON, `ai_result` is exactly the
parsed structure, with no mutation, validation, or added/removed fields. -/
theorem valid_json_provider_text_returned_verbatim
    (provider : ChatRequest → String) (body : List (String × Json)) (j : Json)
    (hvalid : missingFields body = [])
    (hparse : jsonLoads (provider (prefill_request body)) = some j) :
    (feasibility_prefill provider body).1.1 = 200 ∧
    objGet (feasibility_prefill provider body).1.2 "ai_result" = some j := by
  have hE : (missingFields body).isEmpty = true := by rw [hvalid]; rfl
  have hbody : (feasibility_prefill provider body).1.2 =
      Json.obj [("project", Json.obj body),
                ("ai_result", parse_or_error (provider (prefill_request body)))] := by
    simp [feasibility_prefill, hE, call_chatgpt_prefill]
  refine ⟨?_, ?_⟩
  · simp [feasibility_prefill, hE]
  · rw [hbody]
    show dictGet _ _ = _
    rw [show parse_or_error (provider (prefill_request body)) = j from by
        unfold parse_or_error; rw [hparse]]
    rfl

/-- C4 witness: a provider answering the JSON array `[1, 2]` on a concrete
valid body yields exactly that parsed array as `ai_result`. -/
theorem valid_json_provider_text_returned_verbatim_witness :
    (missingFields exampleBody = [] ∧
      jsonLoads (constProvider "[1, 2]" (prefill_request exampleBody)) =
        some (Json.arr [Json.num 1, Json.num 2])) ∧
    objGet (feasibility_prefill (constProvider "[1, 2]") exampleBody).1.2
        "ai_result" = some (Json.arr [Json.num 1, Json.num 2]) :=
  ⟨⟨rfl, by with_unfolding_all rfl⟩,
   (valid_json_provider_text_returned_verbatim (constProvider "[1, 2]")
      exampleBody (Json.arr [Json.num 1, Json.num 2]) rfl
      (by with_unfolding_all rfl)).2⟩

/-- C5: an absent optional field (`dwellings`, `gfa_m2`, `description`) is
rendered in the user instruction as the explicit placeholder `None` after
its label, rather than the line being omitted. -/
theorem absent_optional_fields_rendered_as_placeholder
    (pd : List (String × Json)) :
    (dictGet pd "dwellings" = none →
      user_prompt pd = prompt_head pd
        ++ "\n- Number of dwellings: " ++ "None"
        ++ "\n- Gross floor area (m2): " ++ pyGet pd "gfa_m2"
        ++ "\n- Brief description: " ++ pyGet pd "description"
        ++ prompt_tail) ∧
    (dictGet pd "gfa_m2" = none →
      user_prompt pd = prompt_head pd
        ++ "\n- Number of dwellings: " ++ pyGet pd "dwellings"
        ++ "\n- Gross floor area (m2): " ++ "None"
        ++ "\n- Brief description: " ++ pyGet pd "description"
        ++ prompt_tail) ∧
    (dictGet pd "description" = none →
      user_prompt pd = prompt_head pd
        ++ "\n- Number of dwellings: " ++ pyGet pd "dwellings"
        ++ "\n- Gross floor area (m2): " ++ pyGet pd "gfa_m2"
        ++ "\n- Brief description: " ++ "None"
        ++ prompt_tail) := by
  refine ⟨?_, ?_, ?_⟩ <;> intro h <;>
    simp only [user_prompt, pyGet, h]

/-- C5 witness: on a body carrying only the required fields, all three
optional lines carry the `None` placeholder. -/
theorem absent_optional_fields_rendered_as_placeholder_witness :
    dictGet exampleBody "dwellings" = none ∧
    user_prompt exampleBody = prompt_head exampleBody
      ++ "\n- Number of dwellings: " ++ "None"
      ++ "\n- Gross floor area (m2): " ++ pyGet exampleBody "gfa_m2"
      ++ "\n- Brief description: " ++ pyGet exampleBody "description"
      ++ prompt_tail :=
  ⟨rfl, (absent_optional_fields_rendered_as_placeholder exampleBody).1 rfl⟩

/-- C6: every validated request issues exactly one outbound call, a chat
completion with the fixed model identifier, two ordered messages (the
verbatim system instruction constant, then the per-request user
instruction), and temperature 0.1. -/
theorem provider_call_shape
    (provider : ChatRequest → String) (body : List (String × Json))
    (hvalid : missingFields body = []) :
    (feasibility_prefill provider body).2 =
      [⟨"gpt-4o-mini",
        [⟨"system", SYSTEM_PROMPT⟩, ⟨"user", user_prompt body⟩],
        1 / 10⟩] := by
  have hE : (missingFields body).isEmpty = true := by rw [hvalid]; rfl
  simp [feasibility_prefill, hE, call_chatgpt_prefill, prefill_request]

/-- C6 witness: the call shape on a concrete valid body. -/
theorem provider_call_shape_witness :
    missingFields exampleBody = [] ∧
    (feasibility_prefill (constProvider "x") exampleBody).2 =
      [⟨"gpt-4o-mini",
        [⟨"system", SYSTEM_PROMPT⟩, ⟨"user", user_prompt exampleBody⟩],
        1 / 10⟩] :=
  ⟨rfl, provider_call_shape (constProvider "x") exampleBody rfl⟩

/-- C7: an absent or empty `OPENAI_API_KEY` environment variable makes
module initialisation fail with a fatal error, before any request. -/
theorem missing_api_key_is_fatal (env : Option String)
    (h : env = none ∨ env = some "") :
    startup_check env =
      Except.error "OPENAI_API_KEY environment variable is not set" := by
  rcases h with h | h <;> rw [h] <;> rfl

/-- C7 witness: the unset environment variable is fatal. -/
theorem missing_api_key_is_fatal_witness :
    ((none : Option String) = none ∨ (none : Option String) = some "") ∧
    startup_check none =
      Except.error "OPENAI_API_KEY environment variable is not set" :=
  ⟨Or.inl rfl, missing_api_key_is_fatal none (Or.inl rfl)⟩

/-- C8: the health endpoint returns status 200 with exactly
`{"status": "ok", "message": "NSW feasibility API is running"}`, with no
dependence on any other state. -/
theorem health_endpoint_constant_payload :
    rootEndpoint =
      (200, Json.obj [("status", Json.str "ok"),
                      ("message", Json.str "NSW feasibility API is running")]) :=
  rfl

/-- C9: the missing-field names are always reported in the fixed order of
the required-fields list (`address`, `lga`, `project_type`) regardless of
the body, and the empty body yields exactly
`Missing fields: address, lga, project_type`. -/
theorem missing_fields_reported_in_fixed_order
    (provider : ChatRequest → String) (body : List (String × Json)) :
    List.Sublist (missingFields body) requiredFields ∧
    (feasibility_prefill provider []).1 =
      (400, Json.obj [("error",
        Json.str "Missing fields: address, lga, project_type")]) :=
  ⟨List.filter_sublist _, rfl⟩

/-- C10: only a JSON-decode failure triggers the fallback: any text that
parses as JSON is returned as `ai_result` unchanged, including bare
numbers, strings, booleans, null, arrays, and objects that themselves
contain an `error` key — so a parsed object with an `error` key is
indistinguishable from a genuine parse failure. -/
theorem parse_fallback_only_on_decode_failure :
    (∀ (content : String) (j : Json),
        jsonLoads content = some j → parse_or_error content = j) ∧
    parse_or_error "42" = Json.num 42 ∧
    parse_or_error "\"hi\"" = Json.str "hi" ∧
    parse_or_error "true" = Json.bool true ∧
    parse_or_error "null" = Json.null ∧
    parse_or_error "[]" = Json.arr [] ∧
    parse_or_error "\x7b\"error\": \"boom\"\x7d" =
      Json.obj [("error", Json.str "boom")] ∧
    parse_or_error
        "\x7b\"error\": \"Model did not return valid JSON\", \"raw\": \"x\"\x7d" =
      parse_or_error "x" := by
  refine ⟨?_, by with_unfolding_all rfl, by with_unfolding_all rfl,
    by with_unfolding_all rfl, by with_unfolding_all rfl,
    by with_unfolding_all rfl, by with_unfolding_all rfl,
    by with_unfolding_all rfl⟩
  intro content j h
  unfold parse_or_error
  rw [h]

/-- C10 witness: the non-fallback branch applied to the bare number 42. -/
theorem parse_fallback_only_on_decode_failure_witness :
    jsonLoads "42" = some (Json.num 42) ∧ parse_or_error "42" = Json.num 42 :=
  ⟨by with_unfolding_all rfl,
   parse_fallback_only_on_decode_failure.1 "42" (Json.num 42)
     (by with_unfolding_all rfl)⟩
